import Mathlib

/-!
Verification of the Account REST service (`service/routes.py`) against its
natural-language specification.

The route handlers are embedded directly from `src/service/routes.py`.
The persistence and serialization layer (`service/models.py`, the `Account`
model) is not part of the sources, so it is modelled from the spec
(sections 3, 4.1, 4.2): a list-backed record store with a monotone id
counter, and in-place deserialize/serialize with required keys name/email.
-/

namespace AccountService

/-- A persisted Account row.  Attributes from spec section 3; the date is
kept as its ISO string rendering throughout. -/
structure Account where
  id : Nat
  name : String
  email : String
  address : String
  phone_number : Option String
  date_joined : String
deriving DecidableEq, Repr

/-- The untyped JSON body of a request, as seen by `deserialize`: each known
key either present with a string value or absent.  Unknown keys are ignored
by the serialization layer (spec section 4.2), so they are not represented. -/
structure Payload where
  name : Option String
  email : Option String
  address : Option String
  phone_number : Option String
  date_joined : Option String
deriving DecidableEq, Repr

/-- The wire form of a record produced by `serialize`: all attributes, the
date rendered as an ISO-date string (spec section 4.2). -/
structure SerializedAccount where
  id : Nat
  name : String
  email : String
  address : String
  phone_number : Option String
  date_joined : String
deriving DecidableEq, Repr

/-- Modelled from the spec (section 4.2, missing `service/models.py`):
`serialize(record)` maps a record to a flat key/value object containing all
attributes. -/
def Account.serialize (a : Account) : SerializedAccount :=
  ⟨a.id, a.name, a.email, a.address, a.phone_number, a.date_joined⟩

/-- Modelled from the spec (section 4.2, missing `service/models.py`):
`deserialize(payload)` populates the target record in place, failing with a
ValidationError when the required keys name or email are missing, without
partial mutation.  Optional keys absent from the payload leave the target
field untouched; the identifier is never read from the payload (it is
server-assigned, spec section 3). -/
def Account.deserialize (a : Account) (p : Payload) : Except String Account :=
  match p.name, p.email with
  | some n, some e =>
      .ok { a with
              name := n
              email := e
              address := p.address.getD a.address
              phone_number := p.phone_number
              date_joined := p.date_joined.getD a.date_joined }
  | _, _ => .error "ValidationError: missing required key name or email"

/-- A fresh, not-yet-persisted record, as constructed by `Account()` in
`create_accounts`. -/
def Account.fresh : Account :=
  ⟨0, "", "", "", none, ""⟩

/-- Modelled from the spec (section 4.1, missing `service/models.py`):
the record store, a sequence of persisted rows plus the next identifier to
assign at creation time. -/
structure DB where
  nextId : Nat
  rows : List Account
deriving DecidableEq, Repr

/-- The empty store. -/
def DB.empty : DB := ⟨1, []⟩

/-- Modelled from the spec (section 4.1): `create(record)` assigns a new
unique identifier, persists the record and returns the stored record. -/
def DB.create (db : DB) (a : Account) : DB × Account :=
  let stored := { a with id := db.nextId }
  (⟨db.nextId + 1, db.rows ++ [stored]⟩, stored)

/-- Modelled from the spec (section 4.1): `find_by_id(id)` returns the
matching record, or signals not-found (here: `none`, matching the
`type(account) == Account` checks in the handlers). -/
def DB.find (db : DB) (i : Nat) : Option Account :=
  db.rows.find? (fun r => r.id == i)

/-- Modelled from the spec (section 4.1): `list_all()` returns every
record. -/
def DB.all (db : DB) : List Account := db.rows

/-- Modelled from the spec (section 4.1): `update(record)` overwrites the
existing record identified by the record's id. -/
def DB.update (db : DB) (a : Account) : DB :=
  ⟨db.nextId, db.rows.map (fun r => if r.id == a.id then a else r)⟩

/-- Modelled from the spec (section 4.1): `delete(id)` removes the
record. -/
def DB.delete (db : DB) (i : Nat) : DB :=
  ⟨db.nextId, db.rows.filter (fun r => r.id != i)⟩

/-- A response body: a serialized record, a sequence of them, a structured
error object (a JSON object carrying an error description), or empty. -/
inductive Body where
  | record (r : SerializedAccount)
  | records (rs : List SerializedAccount)
  | errorObj (msg : String)
  | empty
deriving DecidableEq, Repr

/-- An HTTP response: status code, body, and optional Location header. -/
structure Response where
  status : Nat
  body : Body
  location : Option String
deriving DecidableEq, Repr

/-- The outcome of running a handler: either a response, or an exception
that escaped the handler (`raise ValueError(...)` in `update_account` and
`delete_account`). -/
inductive Outcome where
  | resp (r : Response)
  | raised (msg : String)
deriving DecidableEq, Repr

/-- `flask.make_response(body, status)`: the HTTP layer discards the body of
a 204 No Content response. -/
def make_response (b : Body) (s : Nat) : Response :=
  ⟨s, if s == 204 then .empty else b, none⟩

/-- An incoming POST /accounts request: the Content-Type header (absent or
its string value) and the parsed JSON body. -/
structure Request where
  contentType : Option String
  payload : Payload
deriving DecidableEq, Repr

/-- From `routes.py` lines 161-170: `check_content_type` succeeds only when
the header is present, truthy (non-empty) and equal to the expected media
type; otherwise the request is aborted with 415. -/
def check_content_type (ct : Option String) (media : String) : Bool :=
  match ct with
  | some c => c != "" && c == media
  | none => false

/-- From `routes.py` lines 41-58, `create_accounts`: check the content type
(aborting with 415 before the body is deserialized), deserialize the body
into a fresh record, persist it, and answer 201 with the serialized record
and a Location header.  A deserialization failure is translated by the
app-wide ValidationError handler (modelled from spec section 7) into a 400
response before any store mutation. -/
def create_accounts (db : DB) (req : Request) : DB × Response :=
  if !check_content_type req.contentType "application/json" then
    (db, ⟨415, .errorObj "Content-Type must be application/json", none⟩)
  else
    match Account.fresh.deserialize req.payload with
    | .error e => (db, ⟨400, .errorObj e, none⟩)
    | .ok acc =>
        let (db2, stored) := db.create acc
        (db2, ⟨201, .record stored.serialize, some "/"⟩)

/-- From `routes.py` lines 64-77, `list_accounts`: serialize every stored
record and answer 200. -/
def list_accounts (db : DB) : Response :=
  make_response (.records (db.all.map Account.serialize)) 200

/-- From `routes.py` lines 83-102, `read_account`: try to find and serialize
the record (200); any failure is caught and answered as 404 with an error
object naming the missing id. -/
def read_account (db : DB) (i : Nat) : Response :=
  match db.find i with
  | some a => make_response (.record a.serialize) 200
  | none =>
      make_response (.errorObj ("Account ID " ++ toString i ++ " not found")) 404

/-- From `routes.py` lines 109-130, `update_account`: when the id is found,
deserialize the body into the record, persist the update and answer 200 with
the serialized record; when it is not found, the handler sets a 404 status
code into a local variable but then executes `raise ValueError(...)`, so the
exception escapes and no response is built by the handler.  A
deserialization failure propagates to the app-wide ValidationError handler
(400, modelled from spec section 7). -/
def update_account (db : DB) (i : Nat) (p : Payload) : DB × Outcome :=
  match db.find i with
  | some account =>
      match account.deserialize p with
      | .ok prepared =>
          (db.update prepared,
           .resp (make_response (.record prepared.serialize) 200))
      | .error e => (db, .resp ⟨400, .errorObj e, none⟩)
  | none =>
      (db, .raised ("Account ID " ++ toString i ++ " not found"))

/-- From `routes.py` lines 136-154, `delete_account`: when the id is found,
delete the record and answer 204 (the handler passes `jsonify({})`, which the
HTTP layer discards for 204); when it is not found, the handler executes
`raise ValueError(...)`, so the exception escapes and no response is built. -/
def delete_account (db : DB) (i : Nat) : DB × Outcome :=
  match db.find i with
  | some _ =>
      (db.delete i, .resp (make_response (.errorObj "") 204))
  | none =>
      (db, .raised ("Account ID " ++ toString i ++ " not found"))

/-- The framework boundary: a response is returned as-is, while an exception
that escapes a handler surfaces as the framework's generic 500 Internal
Server Error fault response (spec section 7 propagation policy for
unexpected errors). -/
def toHttp (o : Outcome) : Response :=
  match o with
  | .resp r => r
  | .raised _ => ⟨500, .errorObj "Internal Server Error", none⟩

/-- Sequential POST /accounts requests against an evolving store. -/
def postMany (db : DB) (reqs : List Request) : DB :=
  reqs.foldl (fun d r => (create_accounts d r).1) db

/-- A create request that satisfies both gates of `create_accounts`: the
exact content type and the required body keys. -/
def validCreate (r : Request) : Prop :=
  r.contentType = some "application/json" ∧
    (∃ n, r.payload.name = some n) ∧ (∃ e, r.payload.email = some e)

/-- A concrete valid payload, used by the witnesses. -/
def samplePayload : Payload :=
  ⟨some "Ada", some "ada@x.io", some "1 Infinite Loop", some "555-0100",
   some "2024-01-01"⟩

/-- A store holding exactly one account, with id 1. -/
def sampleDB : DB :=
  (DB.empty.create
    { Account.fresh with
        name := "Ada", email := "ada@x.io", address := "1 Infinite Loop" }).1

/-- A concrete valid create request, used by the witnesses. -/
def req1 : Request := ⟨some "application/json", samplePayload⟩

/-- A second concrete valid create request, used by the witnesses. -/
def req2 : Request :=
  ⟨some "application/json", ⟨some "Bob", some "bob@x.io", none, none, none⟩⟩

lemma check_ct_iff (ct : Option String) :
    check_content_type ct "application/json" = true ↔
      ct = some "application/json" := by
  cases ct with
  | none => simp [check_content_type]
  | some c =>
    simp only [check_content_type, Bool.and_eq_true, bne_iff_ne, ne_eq,
      beq_iff_eq, Option.some.injEq]
    exact ⟨fun h => h.2, fun h => ⟨by simp [h], h⟩⟩

lemma find_update_of_find (rows : List Account) (i : Nat) (a b : Account)
    (hf : rows.find? (fun r => r.id == i) = some a) (hb : b.id = a.id) :
    (rows.map (fun r => if r.id == a.id then b else r)).find?
      (fun r => r.id == i) = some b := by
  induction rows with
  | nil => simp at hf
  | cons r rs ih =>
    by_cases h : r.id = i
    · have hpr : (r.id == i) = true := by simp [h]
      rw [List.find?_cons, hpr] at hf
      have har : r = a := by simpa using hf
      have hhead : (if (r.id == a.id) = true then b else r) = b := by
        simp [har]
      have hbi : (b.id == i) = true := by
        simp [hb, ← har, h]
      simp only [List.map_cons, hhead, List.find?_cons, hbi]
    · have hpr : (r.id == i) = false := by simp [h]
      rw [List.find?_cons, hpr] at hf
      have hf2 : List.find? (fun r => r.id == i) rs = some a := by
        simpa using hf
      have hai : a.id = i := by simpa using List.find?_some hf2
      have hcond : ((if (r.id == a.id) = true then b else r).id == i) = false := by
        simp [hai, h]
      simp only [List.map_cons, List.find?_cons, hcond]
      exact ih hf2

lemma find_delete (db : DB) (i : Nat) : (db.delete i).find i = none := by
  rw [DB.find, List.find?_eq_none]
  intro x hx
  have := List.of_mem_filter hx
  simpa using this

lemma postMany_rows_length (reqs : List Request) :
    ∀ db : DB, (∀ r ∈ reqs, validCreate r) →
      (postMany db reqs).rows.length = db.rows.length + reqs.length := by
  induction reqs with
  | nil => intro db _; simp [postMany]
  | cons r rs ih =>
    intro db h
    obtain ⟨hct, ⟨n, hn⟩, ⟨e, he⟩⟩ := h r (List.mem_cons_self r rs)
    have hstep :
        (create_accounts db r).1.rows.length = db.rows.length + 1 := by
      simp [create_accounts, (check_ct_iff r.contentType).mpr hct,
        Account.deserialize, hn, he, DB.create]
    have := ih (create_accounts db r).1 (fun q hq => h q (List.mem_cons_of_mem r hq))
    simp only [postMany, List.foldl_cons, List.length_cons] at this ⊢
    omega

/-- C1: the claim says a PUT /accounts/{id} for an id not in the store
returns 404 as its final response with a structured error body.  On the
code, the handler instead executes `raise ValueError(...)`: the exception
escapes unhandled and the framework answers 500, not 404.  This theorem
evaluates the code at the failing input (PUT /accounts/1 with a valid JSON
body against an empty store). -/
theorem update_account_missing_id_unhandled :
    (update_account DB.empty 1 samplePayload).2 =
      Outcome.raised "Account ID 1 not found" ∧
    (toHttp (update_account DB.empty 1 samplePayload).2).status = 500 ∧
    (toHttp (update_account DB.empty 1 samplePayload).2).status ≠ 404 := by
  refine ⟨rfl, rfl, by decide⟩

/-- C2: the claim says a DELETE /accounts/{id} for an id not in the store
returns 404 (not 204, not a silent no-op) as its final response.  On the
code, the handler instead executes `raise ValueError(...)`: the exception
escapes unhandled and the framework answers 500, not 404.  This theorem
evaluates the code at the failing input (DELETE /accounts/1 against an
empty store). -/
theorem delete_account_missing_id_unhandled :
    (delete_account DB.empty 1).2 =
      Outcome.raised "Account ID 1 not found" ∧
    (toHttp (delete_account DB.empty 1).2).status = 500 ∧
    (toHttp (delete_account DB.empty 1).2).status ≠ 404 ∧
    (toHttp (delete_account DB.empty 1).2).status ≠ 204 ∧
    (delete_account DB.empty 1).1 = DB.empty := by
  refine ⟨rfl, rfl, by decide, by decide, rfl⟩

/-- C3: every POST /accounts whose Content-Type header is not exactly
"application/json" is answered 415, regardless of the body, and the store
is unchanged (no record is created). -/
theorem create_accounts_wrong_content_type (db : DB) (req : Request)
    (h : req.contentType ≠ some "application/json") :
    (create_accounts db req).2.status = 415 ∧
    (create_accounts db req).1 = db := by
  have hct : check_content_type req.contentType "application/json" = false := by
    rw [Bool.eq_false_iff]
    intro hb
    exact h ((check_ct_iff req.contentType).mp hb)
  simp [create_accounts, hct]

/-- Witness for C3 at a concrete wrong content type and a valid body. -/
theorem create_accounts_wrong_content_type_witness :
    (create_accounts DB.empty ⟨some "test/html", samplePayload⟩).2.status = 415 ∧
    (create_accounts DB.empty ⟨some "test/html", samplePayload⟩).1 = DB.empty :=
  create_accounts_wrong_content_type DB.empty ⟨some "test/html", samplePayload⟩
    (by decide)

/-- C4: every POST /accounts with Content-Type application/json and a body
carrying name, email and address is answered 201 with a server-assigned id
(the store's next identifier), every submitted field echoed back unchanged,
and a Location header. -/
theorem create_accounts_valid_created (db : DB) (req : Request)
    (n e addr : String)
    (hct : req.contentType = some "application/json")
    (hn : req.payload.name = some n)
    (he : req.payload.email = some e)
    (ha : req.payload.address = some addr) :
    (create_accounts db req).2.status = 201 ∧
    (create_accounts db req).2.location.isSome = true ∧
    ∃ r : SerializedAccount,
      (create_accounts db req).2.body = Body.record r ∧
      r.id = db.nextId ∧ r.name = n ∧ r.email = e ∧ r.address = addr ∧
      r.phone_number = req.payload.phone_number ∧
      (∀ d, req.payload.date_joined = some d → r.date_joined = d) := by
  have hc : check_content_type req.contentType "application/json" = true :=
    (check_ct_iff req.contentType).mpr hct
  have key : create_accounts db req =
      (⟨db.nextId + 1, db.rows ++
          [⟨db.nextId, n, e, addr, req.payload.phone_number,
            req.payload.date_joined.getD ""⟩]⟩,
       ⟨201, Body.record ⟨db.nextId, n, e, addr, req.payload.phone_number,
          req.payload.date_joined.getD ""⟩, some "/"⟩) := by
    simp [create_accounts, hc, Account.deserialize, hn, he, ha, DB.create,
      Account.serialize, Account.fresh]
  rw [key]
  exact ⟨rfl, rfl,
    ⟨⟨db.nextId, n, e, addr, req.payload.phone_number,
       req.payload.date_joined.getD ""⟩,
     rfl, rfl, rfl, rfl, rfl, rfl, fun d hd => by simp [hd]⟩⟩

/-- Witness for C4 at a concrete valid request against the empty store. -/
theorem create_accounts_valid_created_witness :
    (create_accounts DB.empty req1).2.status = 201 ∧
    (create_accounts DB.empty req1).2.location.isSome = true ∧
    ∃ r : SerializedAccount,
      (create_accounts DB.empty req1).2.body = Body.record r ∧
      r.id = DB.empty.nextId ∧ r.name = "Ada" ∧ r.email = "ada@x.io" ∧
      r.address = "1 Infinite Loop" ∧
      r.phone_number = req1.payload.phone_number ∧
      (∀ d, req1.payload.date_joined = some d → r.date_joined = d) :=
  create_accounts_valid_created DB.empty req1
    "Ada" "ada@x.io" "1 Infinite Loop" rfl rfl rfl rfl

/-- C5: every POST /accounts carrying a JSON body (Content-Type
application/json) that lacks the key name or the key email is answered 400
and the store is unchanged: a subsequent GET /accounts returns exactly
the records present before the request. -/
theorem create_accounts_missing_required (db : DB) (req : Request)
    (hct : req.contentType = some "application/json")
    (h : req.payload.name = none ∨ req.payload.email = none) :
    (create_accounts db req).2.status = 400 ∧
    (create_accounts db req).1 = db ∧
    list_accounts (create_accounts db req).1 = list_accounts db := by
  have hc : check_content_type req.contentType "application/json" = true :=
    (check_ct_iff req.contentType).mpr hct
  have hd : Account.fresh.deserialize req.payload =
      Except.error "ValidationError: missing required key name or email" := by
    rcases h with h | h
    · simp [Account.deserialize, h]
    · cases hn : req.payload.name with
      | none => simp [Account.deserialize, hn]
      | some n => simp [Account.deserialize, hn, h]
  simp [create_accounts, hc, hd]

/-- Witness for C5: a JSON request missing the name key, against the
one-account store. -/
theorem create_accounts_missing_required_witness :
    (create_accounts sampleDB
        ⟨some "application/json", ⟨none, some "x@y.z", some "a", none, none⟩⟩).2.status = 400 ∧
    (create_accounts sampleDB
        ⟨some "application/json", ⟨none, some "x@y.z", some "a", none, none⟩⟩).1 = sampleDB ∧
    list_accounts (create_accounts sampleDB
        ⟨some "application/json", ⟨none, some "x@y.z", some "a", none, none⟩⟩).1 =
      list_accounts sampleDB :=
  create_accounts_missing_required sampleDB
    ⟨some "application/json", ⟨none, some "x@y.z", some "a", none, none⟩⟩
    rfl (Or.inl rfl)

/-- C6: GET /accounts/{id} answers 404 with a structured error object
naming the missing id whenever the id is not in the store, and 200 with
the serialized record whenever it is. -/
theorem read_account_contract (db : DB) (i : Nat) :
    (db.find i = none →
      (read_account db i).status = 404 ∧
      (read_account db i).body =
        Body.errorObj ("Account ID " ++ toString i ++ " not found")) ∧
    (∀ a, db.find i = some a →
      (read_account db i).status = 200 ∧
      (read_account db i).body = Body.record a.serialize) := by
  constructor
  · intro h
    simp [read_account, h, make_response]
  · intro a h
    simp [read_account, h, make_response]

/-- Witness for C6: a missing id on the empty store and a present id on
the one-account store. -/
theorem read_account_contract_witness :
    ((read_account DB.empty 1).status = 404 ∧
      (read_account DB.empty 1).body =
        Body.errorObj ("Account ID " ++ toString 1 ++ " not found")) ∧
    ((read_account sampleDB 1).status = 200 ∧
      (read_account sampleDB 1).body =
        Body.record (Account.serialize
          ⟨1, "Ada", "ada@x.io", "1 Infinite Loop", none, ""⟩)) :=
  ⟨(read_account_contract DB.empty 1).1 rfl,
   (read_account_contract sampleDB 1).2
     ⟨1, "Ada", "ada@x.io", "1 Infinite Loop", none, ""⟩ rfl⟩

/-- C7: PUT /accounts/{id} on an id present in the store with a valid JSON
body answers 200 with the updated serialized record, preserves the stored
identifier, and a subsequent GET /accounts/{id} returns exactly the new
field values. -/
theorem update_account_existing (db : DB) (i : Nat) (p : Payload)
    (a : Account) (n e : String)
    (hf : db.find i = some a) (hn : p.name = some n) (he : p.email = some e) :
    ∃ a2 : Account,
      a2.id = a.id ∧ a2.name = n ∧ a2.email = e ∧
      a2.address = p.address.getD a.address ∧
      a2.phone_number = p.phone_number ∧
      (update_account db i p).2 =
        Outcome.resp ⟨200, Body.record a2.serialize, none⟩ ∧
      read_account (update_account db i p).1 i =
        ⟨200, Body.record a2.serialize, none⟩ := by
  refine ⟨{ a with
              name := n, email := e,
              address := p.address.getD a.address,
              phone_number := p.phone_number,
              date_joined := p.date_joined.getD a.date_joined },
          rfl, rfl, rfl, rfl, rfl, ?_, ?_⟩
  · simp [update_account, hf, Account.deserialize, hn, he, make_response]
  · have h1 : (update_account db i p).1 =
        db.update { a with
          name := n, email := e,
          address := p.address.getD a.address,
          phone_number := p.phone_number,
          date_joined := p.date_joined.getD a.date_joined } := by
      simp [update_account, hf, Account.deserialize, hn, he]
    rw [h1]
    have h2 : (db.update { a with
          name := n, email := e,
          address := p.address.getD a.address,
          phone_number := p.phone_number,
          date_joined := p.date_joined.getD a.date_joined }).find i =
        some { a with
          name := n, email := e,
          address := p.address.getD a.address,
          phone_number := p.phone_number,
          date_joined := p.date_joined.getD a.date_joined } :=
      find_update_of_find db.rows i a _ hf rfl
    simp [read_account, h2, make_response]

/-- Witness for C7: updating the single account of the one-account store. -/
theorem update_account_existing_witness :
    ∃ a2 : Account,
      a2.id = (1 : Nat) ∧ a2.name = "Georges" ∧ a2.email = "g@y.fr" ∧
      a2.address = Option.getD (Payload.address
        ⟨some "Georges", some "g@y.fr", some "Douala", none, none⟩) "1 Infinite Loop" ∧
      a2.phone_number = none ∧
      (update_account sampleDB 1
        ⟨some "Georges", some "g@y.fr", some "Douala", none, none⟩).2 =
        Outcome.resp ⟨200, Body.record a2.serialize, none⟩ ∧
      read_account (update_account sampleDB 1
        ⟨some "Georges", some "g@y.fr", some "Douala", none, none⟩).1 1 =
        ⟨200, Body.record a2.serialize, none⟩ :=
  update_account_existing sampleDB 1
    ⟨some "Georges", some "g@y.fr", some "Douala", none, none⟩
    ⟨1, "Ada", "ada@x.io", "1 Infinite Loop", none, ""⟩
    "Georges" "g@y.fr" rfl rfl rfl

/-- C8: GET /accounts on the empty store answers 200 with an empty
sequence, every valid create succeeds with 201, and after N successful
creates (no intervening deletes) GET /accounts answers 200 with a sequence
of exactly N serialized records. -/
theorem list_accounts_counts (reqs : List Request)
    (h : ∀ r ∈ reqs, validCreate r) :
    (list_accounts DB.empty).status = 200 ∧
    (list_accounts DB.empty).body = Body.records [] ∧
    (∀ r ∈ reqs, ∀ d : DB, (create_accounts d r).2.status = 201) ∧
    (list_accounts (postMany DB.empty reqs)).status = 200 ∧
    ∃ rs, (list_accounts (postMany DB.empty reqs)).body = Body.records rs ∧
      rs.length = reqs.length := by
  refine ⟨rfl, by simp [list_accounts, make_response, DB.empty, DB.all], ?_, rfl, ?_⟩
  · intro r hr d
    obtain ⟨hct, ⟨n, hn⟩, ⟨e, he⟩⟩ := h r hr
    have hc : check_content_type r.contentType "application/json" = true :=
      (check_ct_iff r.contentType).mpr hct
    simp [create_accounts, hc, Account.deserialize, hn, he, DB.create]
  · refine ⟨(postMany DB.empty reqs).all.map Account.serialize, ?_, ?_⟩
    · simp [list_accounts, make_response]
    · rw [List.length_map]
      have := postMany_rows_length reqs DB.empty h
      simpa [DB.all, DB.empty] using this

/-- Witness for C8 with two concrete valid creates against the empty
store. -/
theorem list_accounts_counts_witness :
    (list_accounts DB.empty).status = 200 ∧
    (list_accounts DB.empty).body = Body.records [] ∧
    (∀ r ∈ [req1, req2], ∀ d : DB, (create_accounts d r).2.status = 201) ∧
    (list_accounts (postMany DB.empty [req1, req2])).status = 200 ∧
    ∃ rs, (list_accounts (postMany DB.empty [req1, req2])).body = Body.records rs ∧
      rs.length = ([req1, req2] : List Request).length :=
  list_accounts_counts [req1, req2] (by
    intro r hr
    rcases List.mem_pair.mp hr with rfl | rfl
    · exact ⟨rfl, ⟨"Ada", rfl⟩, ⟨"ada@x.io", rfl⟩⟩
    · exact ⟨rfl, ⟨"Bob", rfl⟩, ⟨"bob@x.io", rfl⟩⟩)

/-- C9: DELETE /accounts/{id} on an id present in the store answers 204
with an empty body, and a subsequent GET /accounts/{id} for that id
answers 404. -/
theorem delete_account_existing (db : DB) (i : Nat) (a : Account)
    (hf : db.find i = some a) :
    (delete_account db i).2 = Outcome.resp ⟨204, Body.empty, none⟩ ∧
    (read_account (delete_account db i).1 i).status = 404 := by
  constructor
  · simp [delete_account, hf, make_response]
  · have h1 : (delete_account db i).1 = db.delete i := by
      simp [delete_account, hf]
    rw [h1]
    simp [read_account, find_delete, make_response]

/-- Witness for C9: deleting the single account of the one-account
store. -/
theorem delete_account_existing_witness :
    (delete_account sampleDB 1).2 = Outcome.resp ⟨204, Body.empty, none⟩ ∧
    (read_account (delete_account sampleDB 1).1 1).status = 404 :=
  delete_account_existing sampleDB 1
    ⟨1, "Ada", "ada@x.io", "1 Infinite Loop", none, ""⟩ rfl

/-- C10: a POST /accounts carrying no Content-Type header at all is
rejected with 415 before the body is deserialized: the store is unchanged
and the outcome does not depend on the payload in any way. -/
theorem create_accounts_no_content_type (db : DB) (req : Request)
    (h : req.contentType = none) :
    (create_accounts db req).2.status = 415 ∧
    (create_accounts db req).1 = db ∧
    (∀ p2 : Payload, create_accounts db ⟨req.contentType, p2⟩ =
      create_accounts db req) := by
  refine ⟨?_, ?_, ?_⟩ <;>
    simp [create_accounts, check_content_type, h]

/-- Witness for C10: a header-less request with a fully valid body,
against the one-account store. -/
theorem create_accounts_no_content_type_witness :
    (create_accounts sampleDB ⟨none, samplePayload⟩).2.status = 415 ∧
    (create_accounts sampleDB ⟨none, samplePayload⟩).1 = sampleDB ∧
    (∀ p2 : Payload, create_accounts sampleDB ⟨Request.contentType ⟨none, samplePayload⟩, p2⟩ =
      create_accounts sampleDB ⟨none, samplePayload⟩) :=
  create_accounts_no_content_type sampleDB ⟨none, samplePayload⟩ rfl

end AccountService
